import Mathlib

/-!
Shallow embedding of `src/main.py` (class `StockAnalyzer`), a daily stock
watch-list pipeline: calendar gate → market snapshot fetch → rule evaluator →
persistence.  Prices and percentage ratios are embedded as rationals (the
Python floats carry decimal market data; a pandas `NaN` in the fund-flow
"最新价" column is embedded as the `latest_isna` flag, which is exactly the
information `notna()` consumes).  The external fetches and the file writes are
embedded as an explicit effect trace produced by the pure pipeline function.
-/

/-- A row of the spot-quote table `ak.stock_zh_a_spot_em()`:
columns 代码 (code), 名称 (name), 最新价 (latest), 最高 (day high). -/
structure SpotRow where
  code : String
  name : String
  latest : ℚ
  high : ℚ
  deriving Repr, DecidableEq

/-- A row of the fund-flow ranking `ak.stock_main_fund_flow(symbol="全部股票")`:
columns 代码, 名称, 最新价 (with its pandas missing-value flag, consumed by
`notna()`), 今日排行榜-主力净占比, 今日排行榜-今日涨跌. -/
structure FlowRow where
  code : String
  name : String
  latest_isna : Bool
  latest : ℚ
  main_net_ratio : ℚ
  today_change : ℚ
  deriving Repr, DecidableEq

/-- A watch-list entry as stored in `care.json` (keys of the Python dict). -/
structure CareStock where
  code : String
  name : String
  buy_price : ℚ
  start_time : String
  current_price : ℚ
  main_net_ratio : ℚ
  today_change : ℚ
  remark : Option String
  deriving Repr, DecidableEq

/-- A settled (closed) position as built in `analyze_stocks` and appended to
`result.json`'s `settled_stocks` array. -/
structure SettledStock where
  code : String
  name : String
  buy_price : ℚ
  start_time : String
  current_price : ℚ
  main_net_ratio : ℚ
  today_change : ℚ
  profit_loss : ℚ
  remark : String
  deriving Repr, DecidableEq

/-- Character-level scan for the two-character pattern `"ST"`. -/
def hasSTChars : List Char → Bool
  | [] => false
  | 'S' :: 'T' :: _ => true
  | _ :: rest => hasSTChars rest

/-- `df["名称"].str.contains("ST", na=False)` for one name: substring test. -/
def containsST (s : String) : Bool :=
  hasSTChars s.toList

/-- The filter of `get_main_fund_flow` (src/main.py lines 147-152): latest
price present, main-fund net ratio > 0, name without "ST", today's change < 0. -/
def filterFlow (df : List FlowRow) : List FlowRow :=
  df.filter fun r =>
    !r.latest_isna && decide (0 < r.main_net_ratio) && !containsST r.name
      && decide (r.today_change < 0)

/-- `sort_values(by="今日排行榜-主力净占比", ascending=False)`: sort the
filtered rows by main-fund net ratio, descending. -/
def sortFlow (df : List FlowRow) : List FlowRow :=
  df.mergeSort fun a b => decide (b.main_net_ratio ≤ a.main_net_ratio)

/-- `top_5_stocks = result_df.head(5)['代码'].tolist() if len(result_df) >= 5
else []` (src/main.py line 189), where `result_df` is the filtered and sorted
fund-flow table returned by `get_main_fund_flow`. -/
def top_5_stocks (df : List FlowRow) : List String :=
  let result_df := sortFlow (filterFlow df)
  if 5 ≤ result_df.length then (result_df.take 5).map (fun r => r.code) else []

/-- Remark of settlement rule 1:
`f"主力净占比{main_net_ratio}%小于-5%，触发卖出条件"`. -/
def rule1_remark (mnr : ℚ) : String :=
  "主力净占比" ++ toString mnr ++ "%小于-5%，触发卖出条件"

/-- Remark of settlement rule 2:
`f"今日涨幅{main_net_ratio}%大于10%，触发卖出条件"` — the Python f-string
interpolates `main_net_ratio`, not `today_change`. -/
def rule2_remark (mnr : ℚ) : String :=
  "今日涨幅" ++ toString mnr ++ "%大于10%，触发卖出条件"

/-- Remark of settlement rule 3:
`f"今日涨幅{main_net_ratio}%大于0%，且主力净占比{main_net_ratio}%小于0%，触发卖出条件"`
(both interpolations use `main_net_ratio` in the source). -/
def rule3_remark (mnr : ℚ) : String :=
  "今日涨幅" ++ toString mnr ++ "%大于0%，且主力净占比" ++ toString mnr
    ++ "%小于0%，触发卖出条件"

/-- The break-even override duplicated at src/main.py lines 218-220 and
253-255: `if highest_price:` (Python truthiness: skipped when the value is
`None` or `0`) `if highest_price > stock['buy_price']: profit_loss = 0`. -/
def break_even_pl (highest_price : Option ℚ) (buy_price pl : ℚ) : ℚ :=
  match highest_price with
  | none => pl
  | some h => if h ≠ 0 then (if h > buy_price then 0 else pl) else pl

/-- One iteration of the watched-stock loop (src/main.py lines 196-278).
`Sum.inl` is an entry appended to `updated_care_stocks`; `Sum.inr` is an entry
appended to `settled_stocks`.  The fund-flow match and the spot match use the
first row whose 代码 equals the stock's code. -/
def evalStock (stock_data : List SpotRow) (flow_df : List FlowRow)
    (stock : CareStock) : CareStock ⊕ SettledStock :=
  let stock_flow_data := flow_df.find? fun r => r.code == stock.code
  let stock_all_data := stock_data.find? fun r => r.code == stock.code
  let highest_price : Option ℚ := stock_all_data.map fun r => r.high
  match stock_flow_data with
  | none => Sum.inl stock
  | some r =>
    if r.main_net_ratio < -5 then
      Sum.inr
        { code := stock.code
          name := r.name
          buy_price := stock.buy_price
          start_time := stock.start_time
          current_price := r.latest
          main_net_ratio := r.main_net_ratio
          today_change := r.today_change
          profit_loss :=
            break_even_pl highest_price stock.buy_price (r.latest - stock.buy_price)
          remark := rule1_remark r.main_net_ratio }
    else if r.today_change > 10 then
      Sum.inr
        { code := stock.code
          name := r.name
          buy_price := stock.buy_price
          start_time := stock.start_time
          current_price := r.latest
          main_net_ratio := r.main_net_ratio
          today_change := r.today_change
          profit_loss := r.latest - stock.buy_price
          remark := rule2_remark r.main_net_ratio }
    else if r.today_change > 0 ∧ r.main_net_ratio < 0 then
      Sum.inr
        { code := stock.code
          name := r.name
          buy_price := stock.buy_price
          start_time := stock.start_time
          current_price := r.latest
          main_net_ratio := r.main_net_ratio
          today_change := r.today_change
          profit_loss :=
            break_even_pl highest_price stock.buy_price (r.latest - stock.buy_price)
          remark := rule3_remark r.main_net_ratio }
    else
      Sum.inl
        { stock with
          current_price := r.latest
          main_net_ratio := r.main_net_ratio
          today_change := r.today_change
          name := r.name }

/-- The whole watched-stock loop: returns `(settled_stocks,
updated_care_stocks)` in the order the Python lists are built. -/
def evalCare (stock_data : List SpotRow) (flow_df : List FlowRow) :
    List CareStock → List SettledStock × List CareStock
  | [] => ([], [])
  | stock :: rest =>
    let res := evalCare stock_data flow_df rest
    match evalStock stock_data flow_df stock with
    | Sum.inl k => (res.1, k :: res.2)
    | Sum.inr t => (t :: res.1, res.2)

example :
    evalStock [⟨"001", "甲", 8, 9⟩] [⟨"001", "甲", false, 8, -6, 1⟩]
      { code := "001", name := "甲", buy_price := 7, start_time := "t0",
        current_price := 7, main_net_ratio := 1, today_change := 0,
        remark := none } =
    Sum.inr
      { code := "001", name := "甲", buy_price := 7, start_time := "t0",
        current_price := 8, main_net_ratio := -6, today_change := 1,
        profit_loss := 0, remark := rule1_remark (-6) } := by
  decide

/-- The top-5 candidate loop (src/main.py lines 281-304): each candidate code
not already present in `updated_care_stocks` whose code is found in the spot
data is appended as a new watch entry with `buy_price` = spot latest price,
`start_time` = the run timestamp, ratio and change from the (filtered, sorted)
fund-flow table `result_df`.  A candidate code absent from `result_df` cannot
occur (the codes are drawn from `result_df`; Python would raise on `iloc[0]`)
and is embedded as a skip. -/
def addCandidates (stock_data : List SpotRow) (result_df : List FlowRow)
    (current_time : String) : List String → List CareStock → List CareStock
  | [], updated_care_stocks => updated_care_stocks
  | stock_code :: rest, updated_care_stocks =>
    let updated' :=
      if updated_care_stocks.any (fun s => s.code == stock_code) then
        updated_care_stocks
      else
        match stock_data.find? (fun r => r.code == stock_code) with
        | none => updated_care_stocks
        | some info =>
          match result_df.find? (fun r => r.code == stock_code) with
          | none => updated_care_stocks
          | some fr =>
            updated_care_stocks ++
              [{ code := stock_code
                 name := info.name
                 buy_price := info.latest
                 start_time := current_time
                 current_price := info.latest
                 main_net_ratio := fr.main_net_ratio
                 today_change := fr.today_change
                 remark := none }]
    addCandidates stock_data result_df current_time rest updated'

/-- The ledger object written to `result.json` by `save_settlements_to_json`. -/
structure ResultJson where
  last_update : String
  settled_stocks : List SettledStock
  deriving Repr, DecidableEq

/-- One observable side effect of a run: an upstream fetch attempt or a file
write.  Local file reads (`care.json`, previous `result.json`) are inputs of
the run and appear as `Env` fields instead.  The Markdown rendering of
`save_result_report` is display-only; the report write carries the two lists
the renderer consumes. -/
inductive Effect where
  | fetchCalendar : Effect
  | fetchSpot : Effect
  | fetchFundFlow : Effect
  | writeCare (stocks : List CareStock) : Effect
  | writeLedger (ledger : ResultJson) : Effect
  | writeReport (care : List CareStock) (settled : List SettledStock) : Effect
  deriving Repr, DecidableEq

/-- Whether an effect modifies a local file. -/
def isWriteEffect : Effect → Bool
  | .writeCare _ => true
  | .writeLedger _ => true
  | .writeReport _ _ => true
  | _ => false

/-- The run's inputs: today's date and timestamp, the three upstream fetch
responses (`none` = the shared retry wrapper `fetch_data_by_ak` exhausted its
retries and returned `None`), and the two local state files read at start. -/
structure Env where
  today : String
  current_time : String
  calendar : Option (List String)
  spot : Option (List SpotRow)
  flow : Option (List FlowRow)
  care_stocks : List CareStock
  previous_settlements : List SettledStock
  deriving Repr, DecidableEq

/-- `is_trading_day` (src/main.py lines 84-100): fetch the trading calendar;
on `None` log and return `False`; otherwise test membership of today's date
(ISO string) in the calendar's `trade_date` column. -/
def is_trading_day (env : Env) : Bool :=
  match env.calendar with
  | none => false
  | some trading_days => trading_days.contains env.today

/-- `analyze_stocks` (src/main.py lines 160-318) as an effect trace.  The
calendar is fetched by the trading-day gate; a non-trading day returns with no
further effect.  The spot fetch and the fund-flow fetch each abort the run
when the retry wrapper yields `None`.  On the full path the updated watch
list, the merged ledger and the report are written in that order. -/
def analyze_stocks (env : Env) : List Effect :=
  if !is_trading_day env then [Effect.fetchCalendar]
  else
    match env.spot with
    | none => [Effect.fetchCalendar, Effect.fetchSpot]
    | some stock_data =>
      match env.flow with
      | none => [Effect.fetchCalendar, Effect.fetchSpot, Effect.fetchFundFlow]
      | some flow_df =>
        let result_df := sortFlow (filterFlow flow_df)
        let top5 := top_5_stocks flow_df
        let res := evalCare stock_data flow_df env.care_stocks
        let updated := addCandidates stock_data result_df env.current_time
          top5 res.2
        let all_settled := env.previous_settlements ++ res.1
        [Effect.fetchCalendar, Effect.fetchSpot, Effect.fetchFundFlow,
         Effect.writeCare updated,
         Effect.writeLedger { last_update := env.current_time,
                              settled_stocks := all_settled },
         Effect.writeReport updated all_settled]

/-! ## Helper lemmas -/

/-- The rule-1 remark and the rule-3 remark never coincide: their templates
start with different characters. -/
theorem rule1_remark_ne_rule3_remark (x y : ℚ) :
    rule1_remark x ≠ rule3_remark y := by
  intro h
  have hd := congrArg String.data h
  simp only [rule1_remark, rule3_remark, String.data_append] at hd
  have h3 := congrArg List.head? hd
  simp only [List.cons_append, List.head?_cons, Option.some.injEq] at h3
  exact absurd h3 (by decide)

/-! ## Claims -/

/-- C1: a watched instrument matched in the fund-flow ranking whose row
satisfies rule 1's condition (main-fund net ratio < -5) and rule 3's condition
(today's change > 0 and ratio < 0, implied) is settled with rule 1's outcome
(profit after the break-even override) and rule 1's remark — first match wins —
and rule 1's remark is never rule 3's remark. -/
theorem rule1_beats_rule3
    (stock_data : List SpotRow) (flow_df : List FlowRow) (stock : CareStock)
    (r : FlowRow)
    (hfind : flow_df.find? (fun q => q.code == stock.code) = some r)
    (h1 : r.main_net_ratio < -5) (_h3 : 0 < r.today_change) :
    evalStock stock_data flow_df stock =
      Sum.inr
        { code := stock.code
          name := r.name
          buy_price := stock.buy_price
          start_time := stock.start_time
          current_price := r.latest
          main_net_ratio := r.main_net_ratio
          today_change := r.today_change
          profit_loss :=
            break_even_pl
              ((stock_data.find? fun q => q.code == stock.code).map fun q => q.high)
              stock.buy_price (r.latest - stock.buy_price)
          remark := rule1_remark r.main_net_ratio } ∧
    rule1_remark r.main_net_ratio ≠ rule3_remark r.main_net_ratio := by
  refine ⟨?_, rule1_remark_ne_rule3_remark _ _⟩
  simp only [evalStock, hfind]
  rw [if_pos h1]

/-- Witness for C1 at a concrete input satisfying rules 1 and 3 at once. -/
theorem rule1_beats_rule3_witness :
    evalStock [(⟨"001", "甲", 8, 9⟩ : SpotRow)]
        [(⟨"001", "甲", false, 8, -6, 1⟩ : FlowRow)]
        ⟨"001", "甲", 7, "t0", 7, 1, 0, none⟩ =
      Sum.inr ⟨"001", "甲", 7, "t0", 8, -6, 1, 0, rule1_remark (-6)⟩ ∧
    rule1_remark (-6) ≠ rule3_remark (-6) := by
  have h := rule1_beats_rule3 [⟨"001", "甲", 8, 9⟩]
      [⟨"001", "甲", false, 8, -6, 1⟩] ⟨"001", "甲", 7, "t0", 7, 1, 0, none⟩
      ⟨"001", "甲", false, 8, -6, 1⟩ (by decide) (by norm_num) (by norm_num)
  exact ⟨h.1.trans (by decide), h.2⟩

/-- C4: a watched instrument matched with ratio ≥ -5 and today's change > 10
is settled by rule 2 with profit = current − buy (no break-even override, for
any spot data), and the remark interpolates the main-fund net ratio — so when
the two values print differently the remark is not the one built from the
change value. -/
theorem rule2_no_override
    (stock_data : List SpotRow) (flow_df : List FlowRow) (stock : CareStock)
    (r : FlowRow)
    (hfind : flow_df.find? (fun q => q.code == stock.code) = some r)
    (h1 : ¬ r.main_net_ratio < -5) (h2 : 10 < r.today_change) :
    evalStock stock_data flow_df stock =
      Sum.inr
        { code := stock.code
          name := r.name
          buy_price := stock.buy_price
          start_time := stock.start_time
          current_price := r.latest
          main_net_ratio := r.main_net_ratio
          today_change := r.today_change
          profit_loss := r.latest - stock.buy_price
          remark := "今日涨幅" ++ toString r.main_net_ratio
            ++ "%大于10%，触发卖出条件" } ∧
    (toString r.main_net_ratio ≠ toString r.today_change →
      "今日涨幅" ++ toString r.main_net_ratio ++ "%大于10%，触发卖出条件" ≠
        "今日涨幅" ++ toString r.today_change ++ "%大于10%，触发卖出条件") := by
  constructor
  · simp only [evalStock, hfind]
    rw [if_neg h1, if_pos h2]
    rfl
  · intro hne heq
    apply hne
    have hd := congrArg String.data heq
    simp only [String.data_append] at hd
    exact String.ext (List.append_cancel_left (List.append_cancel_right hd))

/-- Witness for C4 at a concrete input with change > 10 and day-high above the
buy price: still no break-even override. -/
theorem rule2_no_override_witness :
    evalStock [(⟨"002", "乙", 20, 30⟩ : SpotRow)]
        [(⟨"002", "乙", false, 20, 3, 11⟩ : FlowRow)]
        ⟨"002", "乙", 15, "t0", 15, 1, 0, none⟩ =
      Sum.inr ⟨"002", "乙", 15, "t0", 20, 3, 11, 5, rule2_remark 3⟩ ∧
    rule2_remark 3 ≠ "今日涨幅" ++ toString (11 : ℚ) ++ "%大于10%，触发卖出条件" := by
  have h := rule2_no_override [⟨"002", "乙", 20, 30⟩]
      [⟨"002", "乙", false, 20, 3, 11⟩] ⟨"002", "乙", 15, "t0", 15, 1, 0, none⟩
      ⟨"002", "乙", false, 20, 3, 11⟩ (by decide) (by norm_num) (by norm_num)
  refine ⟨h.1.trans ?_, h.2 (by decide)⟩
  norm_num [rule2_remark]

/-- C5: a watched instrument whose code does not occur in the fund-flow
ranking is carried into the updated watch list completely unchanged (for any
spot data, hence also when its code appears there) and yields no settlement. -/
theorem absent_code_carried_unchanged
    (stock_data : List SpotRow) (flow_df : List FlowRow) (stock : CareStock)
    (h : ∀ r ∈ flow_df, r.code ≠ stock.code) :
    evalStock stock_data flow_df stock = Sum.inl stock ∧
    evalCare stock_data flow_df [stock] = ([], [stock]) := by
  have hfind : flow_df.find? (fun q => q.code == stock.code) = none :=
    List.find?_eq_none.mpr fun x hx => by simpa using h x hx
  have h1 : evalStock stock_data flow_df stock = Sum.inl stock := by
    simp [evalStock, hfind]
  exact ⟨h1, by simp [evalCare, h1]⟩

/-- Witness for C5: the code is present in the spot data but absent from the
fund-flow ranking; the entry is untouched and unsettled. -/
theorem absent_code_carried_unchanged_witness :
    evalStock [(⟨"003", "丙", 9, 10⟩ : SpotRow)]
        [(⟨"004", "丁", false, 3, -9, 2⟩ : FlowRow)]
        ⟨"003", "丙", 8, "t0", 8, 1, 0, none⟩ =
      Sum.inl ⟨"003", "丙", 8, "t0", 8, 1, 0, none⟩ ∧
    evalCare [(⟨"003", "丙", 9, 10⟩ : SpotRow)]
        [(⟨"004", "丁", false, 3, -9, 2⟩ : FlowRow)]
        [⟨"003", "丙", 8, "t0", 8, 1, 0, none⟩] =
      ([], [⟨"003", "丙", 8, "t0", 8, 1, 0, none⟩]) :=
  absent_code_carried_unchanged _ _ _ (by decide)

/-- Concrete spot table for the C2 counterexample: the day high is `0`. -/
def cex2Spot : List SpotRow := [⟨"X", "戊", 5, 0⟩]

/-- Concrete fund-flow table for the C2 counterexample: rule 1 fires. -/
def cex2Flow : List FlowRow := [⟨"X", "戊", false, 5, -6, 0⟩]

/-- Concrete watched entry for the C2 counterexample: bought at `-1`, so the
day high `0` is strictly above the buy price, yet `if highest_price:` is
false. -/
def cex2Stock : CareStock := ⟨"X", "戊", -1, "t0", 0, 0, 0, none⟩

/-- C2 counterexample: the day-high is known (`some 0`) and strictly greater
than the buy price (`-1`), the entry is settled under rule 1, and still the
recorded profit is `6 = 5 - (-1)`, not the claimed `0`: Python's
`if highest_price:` skips the break-even override on a zero day-high. -/
theorem break_even_override_cex :
    (cex2Spot.find? fun q => q.code == cex2Stock.code).map SpotRow.high
      = some 0 ∧
    (0 : ℚ) > cex2Stock.buy_price ∧
    evalStock cex2Spot cex2Flow cex2Stock =
      Sum.inr ⟨"X", "戊", -1, "t0", 5, -6, 0, 6, rule1_remark (-6)⟩ ∧
    ¬ (6 : ℚ) = 0 := by
  refine ⟨by decide, by norm_num [cex2Stock], ?_, by norm_num⟩
  norm_num [evalStock, cex2Spot, cex2Flow, cex2Stock, break_even_pl, List.find?]

/-- C2 (amended): for a settlement under rule 1 or rule 3, if the day-high
from the spot snapshot is known, nonzero and strictly greater than the buy
price then the recorded profit is exactly 0 regardless of the current price;
otherwise (day-high unknown, zero — Python's falsy `if highest_price:` — or
not above the buy price) the profit is the matched current price minus the
buy price. -/
theorem break_even_override_amended
    (stock_data : List SpotRow) (flow_df : List FlowRow) (stock : CareStock)
    (r : FlowRow)
    (hfind : flow_df.find? (fun q => q.code == stock.code) = some r)
    (hrule : r.main_net_ratio < -5 ∨
      (¬ r.main_net_ratio < -5 ∧ ¬ r.today_change > 10 ∧
        0 < r.today_change ∧ r.main_net_ratio < 0)) :
    ∃ t, evalStock stock_data flow_df stock = Sum.inr t ∧
      t.profit_loss =
        match (stock_data.find? fun q => q.code == stock.code).map
            (fun q => q.high) with
        | some h =>
          if h ≠ 0 ∧ h > stock.buy_price then 0 else r.latest - stock.buy_price
        | none => r.latest - stock.buy_price := by
  have hbe : ∀ (hp : Option ℚ) (b p : ℚ),
      break_even_pl hp b p =
        match hp with
        | some h => if h ≠ 0 ∧ h > b then 0 else p
        | none => p := by
    intro hp b p
    cases hp with
    | none => rfl
    | some h =>
      by_cases h0 : h = 0
      · simp [break_even_pl, h0]
      · by_cases hgt : h > b
        · simp [break_even_pl, h0, hgt]
        · simp [break_even_pl, h0, hgt]
  rcases hrule with h1 | ⟨h1, h2, h3, h4⟩
  · have he : evalStock stock_data flow_df stock = Sum.inr
        { code := stock.code, name := r.name, buy_price := stock.buy_price,
          start_time := stock.start_time, current_price := r.latest,
          main_net_ratio := r.main_net_ratio, today_change := r.today_change,
          profit_loss := break_even_pl
            ((stock_data.find? fun q => q.code == stock.code).map fun q => q.high)
            stock.buy_price (r.latest - stock.buy_price),
          remark := rule1_remark r.main_net_ratio } := by
      simp only [evalStock, hfind]
      rw [if_pos h1]
    exact ⟨_, he, hbe _ _ _⟩
  · have he : evalStock stock_data flow_df stock = Sum.inr
        { code := stock.code, name := r.name, buy_price := stock.buy_price,
          start_time := stock.start_time, current_price := r.latest,
          main_net_ratio := r.main_net_ratio, today_change := r.today_change,
          profit_loss := break_even_pl
            ((stock_data.find? fun q => q.code == stock.code).map fun q => q.high)
            stock.buy_price (r.latest - stock.buy_price),
          remark := rule3_remark r.main_net_ratio } := by
      simp only [evalStock, hfind]
      rw [if_neg h1, if_neg h2, if_pos ⟨h3, h4⟩]
    exact ⟨_, he, hbe _ _ _⟩

/-- Witness for the amended C2: rule 1 fires, the day-high `9` is nonzero and
above the buy price `7`, so the recorded profit is 0. -/
theorem break_even_override_amended_witness :
    ∃ t, evalStock [(⟨"005", "己", 8, 9⟩ : SpotRow)]
        [(⟨"005", "己", false, 8, -6, 1⟩ : FlowRow)]
        ⟨"005", "己", 7, "t0", 7, 1, 0, none⟩ = Sum.inr t ∧
      t.profit_loss = 0 := by
  obtain ⟨t, ht, hp⟩ := break_even_override_amended
      [(⟨"005", "己", 8, 9⟩ : SpotRow)] [(⟨"005", "己", false, 8, -6, 1⟩ : FlowRow)]
      ⟨"005", "己", 7, "t0", 7, 1, 0, none⟩ ⟨"005", "己", false, 8, -6, 1⟩
      (by decide) (Or.inl (by norm_num))
  refine ⟨t, ht, hp.trans ?_⟩
  norm_num

/-- C3: the top-candidate list is empty whenever the filtered fund-flow set
has fewer than 5 rows; with 5 or more rows it is exactly the first 5 codes of
the filtered set sorted by main-fund net ratio descending — where the sorted
list is a permutation of the filtered set ordered by non-increasing ratio. -/
theorem top5_selection (flow_df : List FlowRow) :
    ((filterFlow flow_df).length < 5 → top_5_stocks flow_df = []) ∧
    (5 ≤ (filterFlow flow_df).length →
      top_5_stocks flow_df =
        ((sortFlow (filterFlow flow_df)).take 5).map (fun r => r.code) ∧
      (sortFlow (filterFlow flow_df)).Perm (filterFlow flow_df) ∧
      (sortFlow (filterFlow flow_df)).Sorted
        (fun a b => b.main_net_ratio ≤ a.main_net_ratio)) := by
  have hlen : (sortFlow (filterFlow flow_df)).length =
      (filterFlow flow_df).length := List.length_mergeSort _
  constructor
  · intro h
    have hno : ¬ 5 ≤ (sortFlow (filterFlow flow_df)).length := by
      rw [hlen]; omega
    simp only [top_5_stocks, if_neg hno]
  · intro h
    have hyes : 5 ≤ (sortFlow (filterFlow flow_df)).length := by
      rw [hlen]; omega
    refine ⟨by simp only [top_5_stocks, if_pos hyes], List.mergeSort_perm _ _, ?_⟩
    have hs := @List.sorted_mergeSort FlowRow
      (fun a b : FlowRow => decide (b.main_net_ratio ≤ a.main_net_ratio))
      (fun a b c hab hbc => by
        simp only [decide_eq_true_eq] at hab hbc ⊢
        exact le_trans hbc hab)
      (fun a b => by
        simp only [Bool.or_eq_true, decide_eq_true_eq]
        exact le_total _ _)
      (filterFlow flow_df)
    exact List.Pairwise.imp (fun hab => by simpa using hab) hs

/-- Concrete fund-flow table for the C3 witness: six qualifying rows, ratios
already in descending order. -/
def w3Flow : List FlowRow :=
  [⟨"101", "一", false, 10, 9, -1⟩, ⟨"102", "二", false, 10, 8, -1⟩,
   ⟨"103", "三", false, 10, 7, -1⟩, ⟨"104", "四", false, 10, 6, -1⟩,
   ⟨"105", "五", false, 10, 5, -1⟩, ⟨"106", "六", false, 10, 4, -1⟩]

/-- Witness for C3 on a table with six qualifying rows. -/
theorem top5_selection_witness :
    5 ≤ (filterFlow w3Flow).length ∧
    (top_5_stocks w3Flow =
      ((sortFlow (filterFlow w3Flow)).take 5).map (fun r => r.code) ∧
    (sortFlow (filterFlow w3Flow)).Perm (filterFlow w3Flow) ∧
    (sortFlow (filterFlow w3Flow)).Sorted
      (fun a b => b.main_net_ratio ≤ a.main_net_ratio)) :=
  ⟨by decide, (top5_selection w3Flow).2 (by decide)⟩

/-- C8: the trading-day gate returns true iff the calendar fetch succeeded
and today's date is a member of the fetched trading dates; when the fetch
returned nothing after its retries, it returns false rather than failing. -/
theorem is_trading_day_iff (env : Env) :
    (is_trading_day env = true ↔
      ∃ days, env.calendar = some days ∧ env.today ∈ days) ∧
    (env.calendar = none → is_trading_day env = false) := by
  constructor
  · cases hc : env.calendar with
    | none => simp [is_trading_day, hc]
    | some days => simp [is_trading_day, hc, List.contains, List.elem_iff]
  · intro hc
    simp [is_trading_day, hc]

/-- Witness for C8: today is listed in the fetched calendar, and the gate
opens. -/
theorem is_trading_day_iff_witness :
    is_trading_day
      ⟨"2026-10-12", "ts", some ["2026-10-10", "2026-10-12"], none, none, [], []⟩
      = true :=
  ((is_trading_day_iff _).1).mpr ⟨["2026-10-10", "2026-10-12"], rfl, by decide⟩

/-- C7: when the calendar was fetched but today is not in it, the run issues
no spot-quote fetch, no fund-flow fetch and no file write, and returns
normally. -/
theorem non_trading_day_no_fetch_no_write (env : Env) (days : List String)
    (hc : env.calendar = some days) (hn : env.today ∉ days) :
    Effect.fetchSpot ∉ analyze_stocks env ∧
    Effect.fetchFundFlow ∉ analyze_stocks env ∧
    ∀ e ∈ analyze_stocks env, isWriteEffect e = false := by
  have ht : is_trading_day env = false := by
    simp only [is_trading_day, hc]
    simpa [List.contains, List.elem_iff] using hn
  have ha : analyze_stocks env = [Effect.fetchCalendar] := by
    simp [analyze_stocks, ht]
  refine ⟨by simp [ha], by simp [ha], ?_⟩
  intro e he
  rw [ha] at he
  simp only [List.mem_singleton] at he
  subst he
  rfl

/-- Witness for C7: calendar fetched, today absent: the sole effect is the
calendar fetch itself. -/
theorem non_trading_day_no_fetch_no_write_witness :
    Effect.fetchSpot ∉
      analyze_stocks ⟨"2026-10-12", "ts", some ["2026-10-10"], none, none, [], []⟩ ∧
    Effect.fetchFundFlow ∉
      analyze_stocks ⟨"2026-10-12", "ts", some ["2026-10-10"], none, none, [], []⟩ ∧
    ∀ e ∈ analyze_stocks ⟨"2026-10-12", "ts", some ["2026-10-10"], none, none, [], []⟩,
      isWriteEffect e = false :=
  non_trading_day_no_fetch_no_write _ ["2026-10-10"] rfl (by decide)

/-- C9: on a trading day, if the spot-quote fetch or the fund-flow fetch
returned nothing after its retries, the run writes no file at all — the
watch-list file, the ledger file and the report file are untouched. -/
theorem fetch_failure_no_writes (env : Env)
    (ht : is_trading_day env = true)
    (hf : env.spot = none ∨ env.flow = none) :
    ∀ e ∈ analyze_stocks env, isWriteEffect e = false := by
  rcases hf with hs | hfl
  · have ha : analyze_stocks env = [Effect.fetchCalendar, Effect.fetchSpot] := by
      simp [analyze_stocks, ht, hs]
    intro e he
    rw [ha] at he
    fin_cases he <;> rfl
  · cases hs : env.spot with
    | none =>
      have ha : analyze_stocks env = [Effect.fetchCalendar, Effect.fetchSpot] := by
        simp [analyze_stocks, ht, hs]
      intro e he
      rw [ha] at he
      fin_cases he <;> rfl
    | some sd =>
      have ha : analyze_stocks env =
          [Effect.fetchCalendar, Effect.fetchSpot, Effect.fetchFundFlow] := by
        simp [analyze_stocks, ht, hs, hfl]
      intro e he
      rw [ha] at he
      fin_cases he <;> rfl

/-- Witness for C9: trading day, spot fetch failed: no write effect occurs. -/
theorem fetch_failure_no_writes_witness :
    (analyze_stocks ⟨"2026-10-12", "ts", some ["2026-10-12"], none, none, [], []⟩).all
      (fun e => !isWriteEffect e) = true := by
  rw [List.all_eq_true]
  intro e he
  have h := fetch_failure_no_writes
    ⟨"2026-10-12", "ts", some ["2026-10-12"], none, none, [], []⟩ rfl
    (Or.inl rfl) e he
  simp [h]

/-- C6: on a completed run the one ledger write carries the run timestamp as
`last_update` and a `settled_stocks` array that is exactly the previously
persisted records, in order and unmodified, followed by this run's newly
settled records. -/
theorem ledger_appends_history (env : Env) (stock_data : List SpotRow)
    (flow_df : List FlowRow)
    (ht : is_trading_day env = true)
    (hs : env.spot = some stock_data) (hf : env.flow = some flow_df) :
    ∃ led, Effect.writeLedger led ∈ analyze_stocks env ∧
      (∀ l, Effect.writeLedger l ∈ analyze_stocks env → l = led) ∧
      led.last_update = env.current_time ∧
      led.settled_stocks =
        env.previous_settlements ++
          (evalCare stock_data flow_df env.care_stocks).1 := by
  have ha : analyze_stocks env =
      [Effect.fetchCalendar, Effect.fetchSpot, Effect.fetchFundFlow,
       Effect.writeCare (addCandidates stock_data (sortFlow (filterFlow flow_df))
         env.current_time (top_5_stocks flow_df)
         (evalCare stock_data flow_df env.care_stocks).2),
       Effect.writeLedger
         { last_update := env.current_time,
           settled_stocks := env.previous_settlements ++
             (evalCare stock_data flow_df env.care_stocks).1 },
       Effect.writeReport
         (addCandidates stock_data (sortFlow (filterFlow flow_df))
           env.current_time (top_5_stocks flow_df)
           (evalCare stock_data flow_df env.care_stocks).2)
         (env.previous_settlements ++
           (evalCare stock_data flow_df env.care_stocks).1)] := by
    simp [analyze_stocks, ht, hs, hf]
  refine ⟨{ last_update := env.current_time,
            settled_stocks := env.previous_settlements ++
              (evalCare stock_data flow_df env.care_stocks).1 },
    ?_, ?_, rfl, rfl⟩
  · rw [ha]
    simp
  · intro l hl
    rw [ha] at hl
    simp only [List.mem_cons, List.mem_singleton, List.not_mem_nil,
      or_false] at hl
    rcases hl with h | h | h | h | h | h <;> (cases h; try rfl)

/-- Concrete environment for the C6 witness: one previously settled record
and one watched entry that settles this run. -/
def w6Env : Env :=
  { today := "2026-10-12"
    current_time := "2026-10-12 09:00:00"
    calendar := some ["2026-10-12"]
    spot := some [⟨"001", "甲", 8, 6⟩]
    flow := some [⟨"001", "甲", false, 8, -6, 1⟩]
    care_stocks := [⟨"001", "甲", 7, "t0", 7, 1, 0, none⟩]
    previous_settlements :=
      [⟨"000", "旧", 3, "t-1", 4, 1, 1, 1, "r"⟩] }

/-- Witness for C6 on a concrete completed run. -/
theorem ledger_appends_history_witness :
    ∃ led, Effect.writeLedger led ∈ analyze_stocks w6Env ∧
      (∀ l, Effect.writeLedger l ∈ analyze_stocks w6Env → l = led) ∧
      led.last_update = w6Env.current_time ∧
      led.settled_stocks =
        w6Env.previous_settlements ++
          (evalCare [⟨"001", "甲", 8, 6⟩] [⟨"001", "甲", false, 8, -6, 1⟩]
            w6Env.care_stocks).1 :=
  ledger_appends_history w6Env [⟨"001", "甲", 8, 6⟩]
    [⟨"001", "甲", false, 8, -6, 1⟩] rfl rfl rfl

/-- The stock loop either settles the entry, carries it forward unchanged, or
refreshes price/ratio/change/name of the matched row while keeping the code. -/
theorem evalStock_cases (stock_data : List SpotRow) (flow_df : List FlowRow)
    (stock : CareStock) :
    (∃ t, evalStock stock_data flow_df stock = Sum.inr t) ∨
    evalStock stock_data flow_df stock = Sum.inl stock ∨
    ∃ r, flow_df.find? (fun q => q.code == stock.code) = some r ∧
      evalStock stock_data flow_df stock =
        Sum.inl { code := stock.code, name := r.name,
                  buy_price := stock.buy_price, start_time := stock.start_time,
                  current_price := r.latest, main_net_ratio := r.main_net_ratio,
                  today_change := r.today_change, remark := stock.remark } := by
  cases hfind : flow_df.find? (fun q => q.code == stock.code) with
  | none => exact Or.inr (Or.inl (by simp [evalStock, hfind]))
  | some r =>
    by_cases h1 : r.main_net_ratio < -5
    · exact Or.inl ⟨_, by simp only [evalStock, hfind]; rw [if_pos h1]⟩
    · by_cases h2 : r.today_change > 10
      · exact Or.inl ⟨_, by
          simp only [evalStock, hfind]; rw [if_neg h1, if_pos h2]⟩
      · by_cases h3 : r.today_change > 0 ∧ r.main_net_ratio < 0
        · exact Or.inl ⟨_, by
            simp only [evalStock, hfind]; rw [if_neg h1, if_neg h2, if_pos h3]⟩
        · refine Or.inr (Or.inr ⟨r, rfl, ?_⟩)
          simp only [evalStock, hfind]
          rw [if_neg h1, if_neg h2, if_neg h3]

/-- The kept branch of the watched-stock loop never changes an entry's code:
both the carry-forward and the field-refresh keep `stock['code']`. -/
theorem evalStock_inl_code (stock_data : List SpotRow) (flow_df : List FlowRow)
    (stock k : CareStock)
    (h : evalStock stock_data flow_df stock = Sum.inl k) :
    k.code = stock.code := by
  rcases evalStock_cases stock_data flow_df stock with ⟨t, ht⟩ | ht | ⟨r, _, ht⟩ <;>
    rw [ht] at h
  · cases h
  · injection h with h2
    rw [← h2]
  · injection h with h2
    rw [← h2]

/-- The codes of the entries the loop keeps form a sublist of the input
codes. -/
theorem evalCare_codes_sublist (stock_data : List SpotRow)
    (flow_df : List FlowRow) :
    ∀ care : List CareStock,
      ((evalCare stock_data flow_df care).2.map fun s => s.code).Sublist
        (care.map fun s => s.code)
  | [] => by simp [evalCare]
  | stock :: rest => by
    have ih := evalCare_codes_sublist stock_data flow_df rest
    cases he : evalStock stock_data flow_df stock with
    | inl k =>
      have hc : k.code = stock.code := evalStock_inl_code _ _ _ _ he
      simp only [evalCare, he, List.map_cons, hc]
      exact ih.cons₂ _
    | inr t =>
      simp only [evalCare, he, List.map_cons]
      exact ih.cons _

/-- The candidate loop preserves distinctness of codes: a candidate is added
only when its code is absent from the list built so far, and it is added with
that code. -/
theorem addCandidates_preserves_nodup (stock_data : List SpotRow)
    (result_df : List FlowRow) (current_time : String) (cs : List String) :
    ∀ updated : List CareStock,
      ((updated.map fun s => s.code).Nodup) →
      (((addCandidates stock_data result_df current_time cs updated).map
          fun s => s.code).Nodup) := by
  induction cs with
  | nil =>
    intro updated h
    simpa [addCandidates] using h
  | cons c rest ih =>
    intro updated h
    simp only [addCandidates]
    apply ih
    split
    · exact h
    · next hany =>
      split
      · exact h
      · split
        · exact h
        · rw [List.map_append, List.nodup_append]
          refine ⟨h, by simp, fun a ha hb => ?_⟩
          simp only [List.map_cons, List.map_nil, List.mem_singleton] at hb
          subst hb
          obtain ⟨x, hx, hxc⟩ := List.mem_map.mp ha
          apply hany
          rw [List.any_eq_true]
          exact ⟨x, hx, by simp [hxc]⟩

/-- C10: whenever the input watch list has pairwise-distinct codes, any
watch list the run writes (after settlement removal and candidate addition)
again has pairwise-distinct codes. -/
theorem updated_watchlist_codes_nodup (env : Env)
    (h : ((env.care_stocks).map fun s => s.code).Nodup) :
    ∀ l, Effect.writeCare l ∈ analyze_stocks env →
      ((l.map fun s => s.code).Nodup) := by
  intro l hl
  cases hb : is_trading_day env with
  | false =>
    rw [show analyze_stocks env = [Effect.fetchCalendar] from by
      simp [analyze_stocks, hb]] at hl
    simp at hl
  | true =>
    cases hs : env.spot with
    | none =>
      rw [show analyze_stocks env = [Effect.fetchCalendar, Effect.fetchSpot]
        from by simp [analyze_stocks, hb, hs]] at hl
      simp at hl
    | some sd =>
      cases hf : env.flow with
      | none =>
        rw [show analyze_stocks env =
            [Effect.fetchCalendar, Effect.fetchSpot, Effect.fetchFundFlow]
          from by simp [analyze_stocks, hb, hs, hf]] at hl
        simp at hl
      | some fd =>
        have ha : analyze_stocks env =
            [Effect.fetchCalendar, Effect.fetchSpot, Effect.fetchFundFlow,
             Effect.writeCare (addCandidates sd (sortFlow (filterFlow fd))
               env.current_time (top_5_stocks fd)
               (evalCare sd fd env.care_stocks).2),
             Effect.writeLedger
               { last_update := env.current_time,
                 settled_stocks := env.previous_settlements ++
                   (evalCare sd fd env.care_stocks).1 },
             Effect.writeReport
               (addCandidates sd (sortFlow (filterFlow fd))
                 env.current_time (top_5_stocks fd)
                 (evalCare sd fd env.care_stocks).2)
               (env.previous_settlements ++
                 (evalCare sd fd env.care_stocks).1)] := by
          simp [analyze_stocks, hb, hs, hf]
        rw [ha] at hl
        simp only [List.mem_cons, List.mem_singleton, List.not_mem_nil,
          or_false] at hl
        rcases hl with h1 | h1 | h1 | h1 | h1 | h1 <;> try cases h1
        case inr.inr.inr.inl.refl =>
          exact addCandidates_preserves_nodup sd (sortFlow (filterFlow fd))
            env.current_time (top_5_stocks fd) _
            ((evalCare_codes_sublist sd fd env.care_stocks).nodup h)

/-- Concrete environment for the C10 witness. -/
def w10Env : Env :=
  { today := "2026-10-12"
    current_time := "ts"
    calendar := some ["2026-10-12"]
    spot := some [⟨"001", "甲", 8, 9⟩]
    flow := some [⟨"001", "甲", false, 8, -6, 1⟩]
    care_stocks := [⟨"001", "甲", 7, "t0", 7, 1, 0, none⟩,
                    ⟨"002", "乙", 6, "t0", 6, 1, 0, none⟩]
    previous_settlements := [] }

/-- Witness for C10: a two-entry watch list with distinct codes stays
duplicate-free in the written watch list of a concrete run. -/
theorem updated_watchlist_codes_nodup_witness :
    ((w10Env.care_stocks.map fun s => s.code).Nodup) ∧
    ((addCandidates [⟨"001", "甲", 8, 9⟩]
        (sortFlow (filterFlow [⟨"001", "甲", false, 8, -6, 1⟩])) "ts"
        (top_5_stocks [⟨"001", "甲", false, 8, -6, 1⟩])
        (evalCare [⟨"001", "甲", 8, 9⟩] [⟨"001", "甲", false, 8, -6, 1⟩]
          w10Env.care_stocks).2).map fun s => s.code).Nodup := by
  have hn : ((w10Env.care_stocks.map fun s => s.code)).Nodup := by decide
  refine ⟨hn, updated_watchlist_codes_nodup w10Env hn _ ?_⟩
  have hb : is_trading_day w10Env = true := rfl
  have hs : w10Env.spot = some [⟨"001", "甲", 8, 9⟩] := rfl
  have hf : w10Env.flow = some [⟨"001", "甲", false, 8, -6, 1⟩] := rfl
  simp [analyze_stocks, hb, hs, hf, show w10Env.current_time = "ts" from rfl]
